import Mathlib

/-!
Verification of the model-editor state logic (`ModelEditor.tsx`) and the
telemetry initialization guard (`telemetry.ts`) of the vscode-codeql
repository, as a shallow embedding in Lean.

JavaScript `Record<string, ModeledMethod>` values are embedded as partial
maps `String → Option ModeledMethod`; the object-spread operator
`\x7b...a, ...b\x7d` (later entries win) is embedded per key as `objectSpread`.
Message payloads that the code takes `Object.keys` / `Object.entries` of are
embedded as association lists `List (String × ModeledMethod)`.
`Set<string>` state is embedded as `Finset String`.
-/

namespace ModelEditor

/-- One modeled method, from `model-editor/modeled-method`. The editor code
only ever inspects the `type` field (comparing it against the string
`"none"`); the remaining fields of the TypeScript type are abstracted into a
single `payload` field so that distinct models for the same signature are
representable. -/
structure ModeledMethod where
  type : String
  payload : String
deriving DecidableEq, Repr

/-- A `Record<string, ModeledMethod>` as a partial map keyed by signature. -/
def MMap : Type := String → Option ModeledMethod

/-- JavaScript object spread `\x7b...a, ...b\x7d` per key: an entry of `b`
wins over an entry of `a` for the same key. -/
def objectSpread (a b : MMap) : MMap := fun s =>
  match b s with
  | some v => some v
  | none => a s

/-- `Object.fromEntries` view of an association list of modeled methods, as a
partial map (message records have one entry per key). -/
def lookupMap (l : List (String × ModeledMethod)) : MMap := fun s => l.lookup s

/-- `Object.fromEntries(Object.entries(m).filter(([, value]) => value.type !== "none"))`:
the restriction of a map to its entries whose type is not `"none"`. -/
def filterNonNone (m : MMap) : MMap := fun s =>
  match m s with
  | some v => if v.type = "none" then none else some v
  | none => none

/-- An external API usage, from `model-editor/external-api-usage`. Only the
`signature` key field is inspected by the editor code. -/
structure ExternalApiUsage where
  signature : String
deriving DecidableEq, Repr

/-- Modelled from the spec: the view-state record
(`model-editor/shared/view-state` is not part of the analysed sources); the
editor only stores it and reads its `mode`. -/
structure ModelEditorViewState where
  mode : String
deriving DecidableEq, Repr

/-- In-progress generation tracker state: per-package sets of signatures,
as updated by the `setInProgressMethods` message case. -/
def InProgressMethods : Type := List (String × Finset String)

/-- Modelled from the spec: `InProgressMethods.setPackageMethods`
(`model-editor/shared/in-progress-methods` is not part of the analysed
sources) replaces the given package's in-progress set, returning a new
value. -/
def setPackageMethods (ipm : InProgressMethods) (pkg : String)
    (methods : Finset String) : InProgressMethods :=
  (pkg, methods) :: ipm.filter (fun p => p.1 != pkg)

/-- The mutable state of the `ModelEditor` component: the five `useState`
cells touched by the message listener and the click handlers. -/
structure EditorState where
  viewState : Option ModelEditorViewState
  externalApiUsages : List ExternalApiUsage
  modeledMethods : MMap
  modifiedSignatures : Finset String
  inProgressMethods : InProgressMethods
  hideModeledApis : Bool

/-- The `loadModeledMethods` message case: the new map is
`\x7b...msg.modeledMethods, ...oldModeledMethods\x7d`, so existing entries win
over incoming ones. No other state cell is touched. -/
def loadModeledMethodsStep (incoming : List (String × ModeledMethod))
    (σ : EditorState) : EditorState :=
  { σ with modeledMethods := objectSpread (lookupMap incoming) σ.modeledMethods }

/-- The `addModeledMethods` message case: the new map is
`\x7b...msg.modeledMethods, ...fromEntries(entries(old).filter(([, v]) => v.type !== "none"))\x7d`,
and every key of the incoming record is added to `modifiedSignatures`. -/
def addModeledMethodsStep (incoming : List (String × ModeledMethod))
    (σ : EditorState) : EditorState :=
  { σ with
    modeledMethods := objectSpread (lookupMap incoming) (filterNonNone σ.modeledMethods)
    modifiedSignatures :=
      σ.modifiedSignatures ∪ (incoming.map Prod.fst).toFinset }

/-- The `onChange` callback: overwrite the entry for the edited method's
signature and add that signature to `modifiedSignatures`. -/
def onChange (method : ExternalApiUsage) (model : ModeledMethod)
    (σ : EditorState) : EditorState :=
  { σ with
    modeledMethods := fun s =>
      if s = method.signature then some model else σ.modeledMethods s
    modifiedSignatures := insert method.signature σ.modifiedSignatures }

/-- Messages posted back to the extension host via `vscode.postMessage`. -/
inductive OutMessage where
  | saveModeledMethods (externalApiUsages : List ExternalApiUsage)
      (modeledMethods : MMap)
  | hideModeledApis (value : Bool)
  | refreshExternalApiUsages

/-- The `onSaveAllClick` callback: posts `saveModeledMethods` with the whole
current state and immediately resets `modifiedSignatures` to the empty set. -/
def onSaveAllClick (σ : EditorState) : OutMessage × EditorState :=
  (OutMessage.saveModeledMethods σ.externalApiUsages σ.modeledMethods,
   { σ with modifiedSignatures := ∅ })

/-- The `onSaveModelClick` callback: posts `saveModeledMethods` with the
given usages and methods and immediately deletes each given usage's signature
from `modifiedSignatures`. -/
def onSaveModelClick (externalApiUsages : List ExternalApiUsage)
    (modeledMethods : MMap) (σ : EditorState) : OutMessage × EditorState :=
  (OutMessage.saveModeledMethods externalApiUsages modeledMethods,
   { σ with
     modifiedSignatures :=
       σ.modifiedSignatures \
         (externalApiUsages.map ExternalApiUsage.signature).toFinset })

/-- A model as a user edit would set it: a non-`"none"` type. -/
def sampleUserModel : ModeledMethod := { type := "sink", payload := "user" }

/-- A model as a generation batch would produce it. -/
def sampleGenModel : ModeledMethod := { type := "source", payload := "generated" }

/-- The explicit unmodeled marker: type `"none"`. -/
def sampleNoneModel : ModeledMethod := { type := "none", payload := "" }

/-- The editor state at session start: empty map, nothing modified. -/
def emptyState : EditorState :=
  { viewState := none
    externalApiUsages := []
    modeledMethods := fun _ => none
    modifiedSignatures := ∅
    inProgressMethods := []
    hideModeledApis := false }

/-- A state in which signature `"a"` carries a user-authored (non-`"none"`)
model and is marked modified. -/
def sampleState : EditorState :=
  { emptyState with
    modeledMethods := fun s => if s = "a" then some sampleUserModel else none
    modifiedSignatures := {"a"} }

/-- A state in which signature `"a"` carries an explicit `"none"` model and
is marked modified (reachable by `onChange` with a `"none"` model from the
initial state). -/
def sampleNoneState : EditorState :=
  { emptyState with
    modeledMethods := fun s => if s = "a" then some sampleNoneModel else none
    modifiedSignatures := {"a"} }

/-- An inbound message as received over the window boundary: a tag string
`t` (the discriminant the listener switches on) together with the payload
fields of the known message kinds. A message whose tag matches no known kind
carries its payload fields unused. -/
structure RawMessage where
  t : String
  viewState : Option ModelEditorViewState
  externalApiUsages : List ExternalApiUsage
  modeledMethods : List (String × ModeledMethod)
  packageName : String
  inProgressMethods : List String

/-- Errors the message listener can raise while handling one message.
`unknownMessageKind` is the failure of the `assertNever(msg)` default branch.
Modelled from the spec: `assertNever` (`common/helpers-pure` is not part of
the analysed sources) raises a hard, explicit unreachable-case failure. -/
inductive DispatchError where
  | unknownMessageKind
deriving DecidableEq, Repr

/-- The tags of the five message kinds the listener's switch handles. -/
def knownTags : List String :=
  ["setModelEditorViewState", "setExternalApiUsages", "loadModeledMethods",
   "addModeledMethods", "setInProgressMethods"]

/-- The switch statement of the message listener: one case per known message
kind, with `assertNever` (a hard failure) as the default branch. -/
def dispatch (msg : RawMessage) (σ : EditorState) :
    Except DispatchError EditorState :=
  if msg.t = "setModelEditorViewState" then
    Except.ok { σ with viewState := msg.viewState }
  else if msg.t = "setExternalApiUsages" then
    Except.ok { σ with externalApiUsages := msg.externalApiUsages }
  else if msg.t = "loadModeledMethods" then
    Except.ok (loadModeledMethodsStep msg.modeledMethods σ)
  else if msg.t = "addModeledMethods" then
    Except.ok (addModeledMethodsStep msg.modeledMethods σ)
  else if msg.t = "setInProgressMethods" then
    Except.ok { σ with
      inProgressMethods :=
        setPackageMethods σ.inProgressMethods msg.packageName
          msg.inProgressMethods.toFinset }
  else
    Except.error DispatchError.unknownMessageKind

/-- A window message event: its origin and its data payload. -/
structure MessageEvent where
  origin : String
  data : RawMessage

/-- An inbound message whose tag matches no known message kind. -/
def bogusMessage : RawMessage :=
  { t := "someUnknownKind"
    viewState := none
    externalApiUsages := []
    modeledMethods := []
    packageName := ""
    inProgressMethods := [] }

/-- A well-formed `addModeledMethods` message carrying one generated model. -/
def sampleAddMessage : RawMessage :=
  { bogusMessage with
    t := "addModeledMethods"
    modeledMethods := [("a", sampleGenModel)] }

/-- An event arriving from a foreign origin whose origin string contains a
newline and a carriage return. -/
def foreignEvent : MessageEvent :=
  { origin := "https://evil.example\n.com\r", data := sampleAddMessage }

/-- `origin.replace(/\n|\r/g, "")`: strip every newline and carriage-return
character from the origin string. -/
def sanitizeOrigin (s : String) : String :=
  String.mk (s.data.filter (fun c => c != Char.ofNat 10 && c != Char.ofNat 13))

/-- The full message listener: dispatch the message when the event origin
equals the window's own origin, otherwise leave the state untouched and log
an error naming the sanitized origin. The second component is the list of
`console.error` lines emitted. -/
def messageListener (windowOrigin : String) (evt : MessageEvent)
    (σ : EditorState) : Except DispatchError EditorState × List String :=
  if evt.origin = windowOrigin then
    (dispatch evt.data σ, [])
  else
    (Except.ok σ, ["Invalid event origin " ++ sanitizeOrigin evt.origin])

/-- Whether an optional map entry is present with the explicit `"none"`
type. -/
def typeIsNone : Option ModeledMethod → Bool
  | some v => v.type == "none"
  | none => false

/-- Invariant (3) of the spec: every modified signature has an entry in the
modeled-method map. -/
def Invariant (σ : EditorState) : Prop :=
  ∀ s ∈ σ.modifiedSignatures, (σ.modeledMethods s).isSome = true

instance (σ : EditorState) : Decidable (Invariant σ) := by
  unfold Invariant; infer_instance

end ModelEditor

namespace Telemetry

/-- The telemetry listener as constructed by `initializeTelemetry`: the
extension id, the extension version, and the injected App Insights key. -/
structure TelemetryListener where
  id : String
  version : String
  key : String
deriving DecidableEq, Repr

/-- The build-time App Insights key constant of `telemetry.ts`. -/
def key : String := "REPLACE-APP-INSIGHTS-KEY"

/-- The process-global telemetry state: the `telemetryListener` module
variable (`undefined` embedded as `none`) together with the extension
context's subscription list. -/
structure TelemetryState where
  telemetryListener : Option TelemetryListener
  subscriptions : List TelemetryListener
deriving DecidableEq, Repr

/-- `initializeTelemetry`: throws when the global listener is already
defined (the thrown message is the second component; the state is returned
unchanged since the throw precedes any assignment); otherwise constructs the
listener, installs it as the global, and pushes it onto the context's
subscriptions. -/
def initializeTelemetry (extensionId extensionVersion : String)
    (g : TelemetryState) : TelemetryState × Option String :=
  match g.telemetryListener with
  | some _ => (g, some "Telemetry is already initialized")
  | none =>
    let l : TelemetryListener :=
      { id := extensionId, version := extensionVersion, key := key }
    ({ telemetryListener := some l, subscriptions := g.subscriptions ++ [l] },
     none)

end Telemetry

namespace ModelEditor

/-- The lookup map of an association list is defined exactly on its keys. -/
theorem lookupMap_isSome_iff (l : List (String × ModeledMethod)) (s : String) :
    (lookupMap l s).isSome = true ↔ s ∈ l.map Prod.fst := by
  induction l with
  | nil => simp [lookupMap]
  | cons p t ih =>
    rcases p with ⟨k, v⟩
    by_cases h : s = k
    · subst h
      simp [lookupMap, List.lookup]
    · have hb : (s == k) = false := by simpa using h
      simp only [lookupMap, List.lookup, hb] at ih ⊢
      simp [h, ih, lookupMap]

/-- Outside the keys of the association list, the lookup map is undefined. -/
theorem lookupMap_eq_none (l : List (String × ModeledMethod)) (s : String)
    (h : s ∉ l.map Prod.fst) : lookupMap l s = none := by
  by_contra hne
  rcases Option.ne_none_iff_isSome.mp hne with hs
  exact h ((lookupMap_isSome_iff l s).mp hs)

/-- C1: merging a generated batch via `addModeledMethods` replaces the entry
for a signature only if the existing entry's type is `"none"` or the
signature is absent; every existing non-`"none"` entry is kept unchanged even
when the incoming batch carries a different model for its signature. -/
theorem addModeledMethods_replaces_only_unmodeled (σ : EditorState)
    (incoming : List (String × ModeledMethod)) (s : String) :
    (∀ v, σ.modeledMethods s = some v → v.type ≠ "none" →
      (addModeledMethodsStep incoming σ).modeledMethods s = some v) ∧
    ((addModeledMethodsStep incoming σ).modeledMethods s ≠ σ.modeledMethods s →
      σ.modeledMethods s = none ∨
        ∃ v, σ.modeledMethods s = some v ∧ v.type = "none") := by
  constructor
  · intro v hv hty
    simp [addModeledMethodsStep, objectSpread, filterNonNone, hv, hty]
  · intro hne
    rcases h : σ.modeledMethods s with _ | v
    · exact Or.inl rfl
    · by_cases hty : v.type = "none"
      · exact Or.inr ⟨v, rfl, hty⟩
      · exact absurd (by
          simp [addModeledMethodsStep, objectSpread, filterNonNone, h, hty])
          hne

/-- Witness for C1: a user-authored `"sink"` model for `"a"` survives an
incoming generated batch that targets `"a"` with a different model. -/
theorem addModeledMethods_replaces_only_unmodeled_witness :
    (addModeledMethodsStep [("a", sampleGenModel)] sampleState).modeledMethods
      "a" = some sampleUserModel :=
  (addModeledMethods_replaces_only_unmodeled sampleState
    [("a", sampleGenModel)] "a").1 sampleUserModel (by decide) (by decide)

/-- C3: applying a generated batch never removes or replaces a non-`"none"`
entry whose signature is outside the batch: it is present and unchanged in
the merged map. -/
theorem addModeledMethods_preserves_outside_batch (σ : EditorState)
    (incoming : List (String × ModeledMethod)) (s : String) (v : ModeledMethod)
    (_hout : s ∉ incoming.map Prod.fst)
    (hv : σ.modeledMethods s = some v) (hty : v.type ≠ "none") :
    (addModeledMethodsStep incoming σ).modeledMethods s = some v := by
  simp [addModeledMethodsStep, objectSpread, filterNonNone, hv, hty]

/-- Witness for C3: the entry for `"a"` is untouched by a batch that only
targets `"b"`. -/
theorem addModeledMethods_preserves_outside_batch_witness :
    (addModeledMethodsStep [("b", sampleGenModel)] sampleState).modeledMethods
      "a" = some sampleUserModel :=
  addModeledMethods_preserves_outside_batch sampleState
    [("b", sampleGenModel)] "a" sampleUserModel (by decide) (by decide)
    (by decide)

/-- C5: after `addModeledMethods`, every key of the incoming batch is in
`modifiedSignatures`, and any signature newly present in
`modifiedSignatures` is a key of the batch. -/
theorem addModeledMethods_modified_signatures (σ : EditorState)
    (incoming : List (String × ModeledMethod)) (s : String) :
    (s ∈ incoming.map Prod.fst →
      s ∈ (addModeledMethodsStep incoming σ).modifiedSignatures) ∧
    (s ∈ (addModeledMethodsStep incoming σ).modifiedSignatures →
      s ∈ σ.modifiedSignatures ∨ s ∈ incoming.map Prod.fst) := by
  simp only [addModeledMethodsStep, Finset.mem_union, List.mem_toFinset]
  tauto

/-- Witness for C5: after merging a batch for `"b"` into `sampleState`,
`"b"` is modified, and membership decomposes into old-or-batch. -/
theorem addModeledMethods_modified_signatures_witness :
    "b" ∈ (addModeledMethodsStep [("b", sampleGenModel)]
      sampleState).modifiedSignatures :=
  (addModeledMethods_modified_signatures sampleState [("b", sampleGenModel)]
    "b").1 (by decide)

/-- C7: seeding the map via `loadModeledMethods` lets existing entries win
on key collision, and the operation is idempotent: loading the same record
twice yields the same editor state as loading it once. -/
theorem loadModeledMethods_precedence_idempotent (σ : EditorState)
    (incoming : List (String × ModeledMethod)) :
    (∀ s v, σ.modeledMethods s = some v →
      (loadModeledMethodsStep incoming σ).modeledMethods s = some v) ∧
    loadModeledMethodsStep incoming (loadModeledMethodsStep incoming σ) =
      loadModeledMethodsStep incoming σ := by
  constructor
  · intro s v hv
    simp [loadModeledMethodsStep, objectSpread, hv]
  · have hmap : objectSpread (lookupMap incoming)
        (objectSpread (lookupMap incoming) σ.modeledMethods) =
        objectSpread (lookupMap incoming) σ.modeledMethods := by
      funext s
      unfold objectSpread
      rcases h : σ.modeledMethods s with _ | v
      · rcases hi : lookupMap incoming s with _ | w <;> simp [h, hi]
      · simp [h]
    simp [loadModeledMethodsStep, hmap]

/-- Witness for C7: loading a batch targeting `"a"` over `sampleState` keeps
the existing model for `"a"`. -/
theorem loadModeledMethods_precedence_idempotent_witness :
    (loadModeledMethodsStep [("a", sampleGenModel)]
      sampleState).modeledMethods "a" = some sampleUserModel :=
  (loadModeledMethods_precedence_idempotent sampleState
    [("a", sampleGenModel)]).1 "a" sampleUserModel (by decide)

/-- C6: the per-model save removes exactly the given usages' signatures
from `modifiedSignatures` — a signature stays modified iff it was modified
and is not among the saved ones — and leaves the modeled-method map
untouched. -/
theorem onSaveModelClick_removes_exactly (σ : EditorState)
    (usages : List ExternalApiUsage) (methods : MMap) (s : String) :
    (s ∈ ((onSaveModelClick usages methods σ).2).modifiedSignatures ↔
      s ∈ σ.modifiedSignatures ∧
        s ∉ usages.map ExternalApiUsage.signature) ∧
    ((onSaveModelClick usages methods σ).2).modeledMethods =
      σ.modeledMethods := by
  constructor
  · simp [onSaveModelClick, Finset.mem_sdiff, List.mem_toFinset]
  · rfl

/-- C2, counterexample: triggering save-all clears `modifiedSignatures`
immediately, in the same synchronous call that posts the save message and
before any persistence outcome can be observed; from `sampleState` (where
`"a"` is modified) the resulting set is already empty, so it is not left
unchanged for the failure case. -/
theorem onSaveAllClick_clears_before_confirmation :
    ((onSaveAllClick sampleState).2).modifiedSignatures = ∅ ∧
    ((onSaveAllClick sampleState).2).modifiedSignatures ≠
      sampleState.modifiedSignatures := by
  refine ⟨rfl, ?_⟩
  decide

/-- C2 as amended: both save triggers update `modifiedSignatures`
unconditionally at the moment the save message is posted — save-all resets
it to the empty set and the per-model save removes the given signatures —
without consulting any persistence outcome; the modeled-method map is
unchanged. -/
theorem save_clears_modified_immediately (σ : EditorState)
    (usages : List ExternalApiUsage) (methods : MMap) :
    (onSaveAllClick σ).1 =
      OutMessage.saveModeledMethods σ.externalApiUsages σ.modeledMethods ∧
    ((onSaveAllClick σ).2).modifiedSignatures = ∅ ∧
    ((onSaveAllClick σ).2).modeledMethods = σ.modeledMethods ∧
    ((onSaveModelClick usages methods σ).2).modifiedSignatures =
      σ.modifiedSignatures \
        (usages.map ExternalApiUsage.signature).toFinset :=
  ⟨rfl, rfl, rfl, rfl⟩

/-- C4: the listener's switch handles every kind of the closed tagged union
of inbound messages — any message whose tag is one of the known kinds is
dispatched successfully — and any message with an unknown tag yields the
hard unreachable-case failure instead of being silently ignored. -/
theorem dispatch_exhaustive (msg : RawMessage) (σ : EditorState) :
    (msg.t ∈ knownTags → ∃ σ', dispatch msg σ = Except.ok σ') ∧
    (msg.t ∉ knownTags →
      dispatch msg σ = Except.error DispatchError.unknownMessageKind) := by
  constructor
  · intro h
    simp only [knownTags, List.mem_cons, List.not_mem_nil, or_false] at h
    rcases h with h | h | h | h | h <;> simp [dispatch, h]
  · intro h
    simp only [knownTags, List.mem_cons, List.not_mem_nil, or_false,
      not_or] at h
    obtain ⟨h1, h2, h3, h4, h5⟩ := h
    simp [dispatch, h1, h2, h3, h4, h5]

/-- Witness for C4: a known-kind message is handled, and a message with an
unrecognized tag produces the unreachable-case error. -/
theorem dispatch_exhaustive_witness :
    (∃ σ', dispatch sampleAddMessage sampleState = Except.ok σ') ∧
    dispatch bogusMessage sampleState =
      Except.error DispatchError.unknownMessageKind :=
  ⟨(dispatch_exhaustive sampleAddMessage sampleState).1 (by decide),
   (dispatch_exhaustive bogusMessage sampleState).2 (by decide)⟩

/-- C9: an event whose origin differs from the window's own origin causes no
state change — the listener returns the state unchanged — and only logs an
error in which every newline and carriage-return character of the origin has
been stripped. -/
theorem messageListener_foreign_origin (windowOrigin : String)
    (evt : MessageEvent) (σ : EditorState) (h : evt.origin ≠ windowOrigin) :
    messageListener windowOrigin evt σ =
      (Except.ok σ, ["Invalid event origin " ++ sanitizeOrigin evt.origin]) ∧
    ∀ c ∈ (sanitizeOrigin evt.origin).data,
      c ≠ Char.ofNat 10 ∧ c ≠ Char.ofNat 13 := by
  constructor
  · simp [messageListener, h]
  · intro c hc
    simp only [sanitizeOrigin, List.mem_filter, Bool.and_eq_true,
      bne_iff_ne] at hc
    exact hc.2

/-- Witness for C9: a foreign-origin event leaves the empty state unchanged
and logs the sanitized origin. -/
theorem messageListener_foreign_origin_witness :
    messageListener "vscode-webview://host" foreignEvent emptyState =
      (Except.ok emptyState,
       ["Invalid event origin " ++ sanitizeOrigin foreignEvent.origin]) :=
  (messageListener_foreign_origin "vscode-webview://host" foreignEvent
    emptyState (by decide)).1

/-- C8, counterexample: `sampleNoneState` satisfies the invariant
(`"a"` is modified and has an entry, of type `"none"`), yet applying
`addModeledMethods` with an empty batch drops that `"none"` entry from the
map while keeping `"a"` in `modifiedSignatures`, so the invariant fails in
the resulting state. -/
theorem invariant_broken_by_addModeledMethods :
    Invariant sampleNoneState ∧
    ¬ Invariant (addModeledMethodsStep [] sampleNoneState) := by
  constructor <;> decide

/-- C8 as amended: the invariant ModifiedSignatures ⊆ dom(ModeledMethod) is
preserved by `loadModeledMethods`, by a user edit, and by both save
operations unconditionally; `addModeledMethods` preserves it provided every
modified signature whose current entry has type `"none"` is a key of the
incoming batch. -/
theorem invariant_preservation (σ : EditorState) (hinv : Invariant σ) :
    (∀ incoming, Invariant (loadModeledMethodsStep incoming σ)) ∧
    (∀ method model, Invariant (onChange method model σ)) ∧
    Invariant ((onSaveAllClick σ).2) ∧
    (∀ usages methods, Invariant ((onSaveModelClick usages methods σ).2)) ∧
    (∀ incoming,
      (∀ s ∈ σ.modifiedSignatures, typeIsNone (σ.modeledMethods s) = true →
        s ∈ incoming.map Prod.fst) →
      Invariant (addModeledMethodsStep incoming σ)) := by
  refine ⟨?_, ?_, ?_, ?_, ?_⟩
  · intro incoming s hs
    have := hinv s hs
    rcases h : σ.modeledMethods s with _ | v
    · rw [h] at this; simp at this
    · simp [loadModeledMethodsStep, objectSpread, h]
  · intro method model s hs
    rcases Finset.mem_insert.mp hs with h | h
    · simp [onChange, h]
    · have := hinv s h
      simp only [onChange]
      by_cases he : s = method.signature
      · simp [he]
      · simpa [he] using this
  · intro s hs
    simp [onSaveAllClick] at hs
  · intro usages methods s hs
    exact hinv s (Finset.mem_sdiff.mp hs).1
  · intro incoming hcond s hs
    rcases Finset.mem_union.mp hs with h | h
    · by_cases hk : s ∈ incoming.map Prod.fst
      · have hsome := (lookupMap_isSome_iff incoming s).mpr hk
        simp only [addModeledMethodsStep, objectSpread]
        rcases hf : filterNonNone σ.modeledMethods s with _ | w
        · simpa [hf] using hsome
        · simp [hf]
      · have hvs := hinv s h
        rcases hv : σ.modeledMethods s with _ | v
        · rw [hv] at hvs; simp at hvs
        · have hty : v.type ≠ "none" := by
            intro hty
            exact hk (hcond s h (by simp [typeIsNone, hv, hty]))
          simp [addModeledMethodsStep, objectSpread, filterNonNone, hv, hty]
    · have hk := List.mem_toFinset.mp h
      have hsome := (lookupMap_isSome_iff incoming s).mpr hk
      simp only [addModeledMethodsStep, objectSpread]
      rcases hf : filterNonNone σ.modeledMethods s with _ | w
      · simpa [hf] using hsome
      · simp [hf]

/-- Witness for C8 as amended: from `sampleNoneState` (which satisfies the
invariant), a batch containing the lone `"none"`-typed modified signature
preserves the invariant. -/
theorem invariant_preservation_witness :
    Invariant (addModeledMethodsStep [("a", sampleGenModel)]
      sampleNoneState) :=
  (invariant_preservation sampleNoneState (by decide)).2.2.2.2
    [("a", sampleGenModel)] (by decide)

end ModelEditor

namespace Telemetry

/-- C10: telemetry is initialized at most once per process: a first call on
an uninitialized state installs the freshly constructed listener before
returning (and throws nothing), and any call on a state whose global
listener is already defined throws and leaves the whole state — in
particular the installed listener — unchanged. -/
theorem initializeTelemetry_at_most_once (id1 v1 id2 v2 : String)
    (subs : List TelemetryListener) :
    ((initializeTelemetry id1 v1 ⟨none, subs⟩).2 = none ∧
      (initializeTelemetry id1 v1 ⟨none, subs⟩).1.telemetryListener =
        some ⟨id1, v1, key⟩ ∧
      (initializeTelemetry id1 v1 ⟨none, subs⟩).1.subscriptions =
        subs ++ [⟨id1, v1, key⟩]) ∧
    ∀ g : TelemetryState, g.telemetryListener.isSome = true →
      (initializeTelemetry id2 v2 g).1 = g ∧
      (initializeTelemetry id2 v2 g).2 =
        some "Telemetry is already initialized" := by
  refine ⟨⟨rfl, rfl, rfl⟩, ?_⟩
  intro g hg
  rcases g with ⟨gl, gs⟩
  rcases gl with _ | l
  · simp at hg
  · exact ⟨rfl, rfl⟩

/-- Witness for C10: initializing twice in a row from the uninitialized
state: the first call installs the listener, the second throws and leaves
the state unchanged. -/
theorem initializeTelemetry_at_most_once_witness :
    (initializeTelemetry "ext.id" "1.2.3"
      (initializeTelemetry "ext.id" "1.2.3" ⟨none, []⟩).1).1 =
      (initializeTelemetry "ext.id" "1.2.3" ⟨none, []⟩).1 ∧
    (initializeTelemetry "ext.id" "1.2.3"
      (initializeTelemetry "ext.id" "1.2.3" ⟨none, []⟩).1).2 =
      some "Telemetry is already initialized" :=
  (initializeTelemetry_at_most_once "ext.id" "1.2.3" "ext.id" "1.2.3" []).2
    (initializeTelemetry "ext.id" "1.2.3" ⟨none, []⟩).1 (by decide)

end Telemetry
